import Mathlib

/-!
Shallow embedding of `src/tools/ssh/ssh_handler.py`: the remote-session
layer (Transport Session, Command Execution, File Transfer) of the
automated test tools repository.

Modelling conventions:
- Connection statuses are the integers used by the source:
  2 = Connected, 1 = Disconnected, 0 = Connection Failed.
- The live `paramiko.SSHClient` and `SCPClient` objects are opaque handles
  (`SSHClient`, `SCPClient`); `None` in Python is `Option.none`.
- Effects of the underlying transport (whether a connect attempt succeeds,
  which exception a close or a copy raises, what lines a remote command
  prints) are supplied as explicit oracle arguments, enumerated by the
  exception classes the source's `except` clauses distinguish.
- A Python function that raises is `Except.error`; an exception that the
  source does not catch propagates as `PyError.raw`.  A Python function
  that falls off the end returns `None`, modelled by an `Option` result.
-/

namespace SSHHandlerModel

/-- Opaque handle standing for a `paramiko.SSHClient` object. -/
structure SSHClient where
  id : Nat
deriving DecidableEq, Repr

/-- Opaque handle standing for an `scp.SCPClient` object. -/
structure SCPClient where
  id : Nat
deriving DecidableEq, Repr

/-- The four instance attributes set in `SSHConnect.__init__`. -/
structure SSHState where
  ssh_session : Option SSHClient
  scp_session : Option SCPClient
  ssh_connection_status : Nat
  scp_connection_status : Nat
deriving DecidableEq, Repr

/-- `SSHConnect.__init__`: no sessions, both statuses 1 (Disconnected). -/
def initState : SSHState :=
  { ssh_session := none
    scp_session := none
    ssh_connection_status := 1
    scp_connection_status := 1 }

/-- Kinds of exceptions from the platform libraries that the source's
`except` clauses distinguish.  `otherException` is any exception matched
only by a bare `except Exception`. -/
inductive Exc
  | authException
  | sshException
  | osError
  | scpException
  | fileNotFoundError
  | permissionError
  | timeoutError
  | otherException
deriving DecidableEq, Repr

/-- The errors raised by the module (the `SSHError` / `SCPError` hierarchy
plus `NetworkError` and `UnknownError`), and `raw` for a platform
exception that propagates uncaught. -/
inductive PyError
  | sshAlreadyConnectedError (msg : String)
  | sshAuthenticationError (msg : String)
  | networkError (msg : String)
  | sshConnectionError (msg : String)
  | unknownError (msg : String)
  | executeCommandError (msg : String)
  | scpConnectionError (msg : String)
  | scpTransferError (msg : String)
  | sshError (msg : String)
  | raw (e : Exc)
deriving DecidableEq, Repr

/-- Outcome of one `ssh_session.connect(...)` attempt (keyed or keyless
path alike), as classified by the `except` clauses of `ssh_connect`. -/
inductive ConnectOutcome
  | success
  | authException
  | osError
  | sshException
  | otherException
deriving DecidableEq, Repr

/-- The `last_exception` variable of `ssh_connect`: `noExc` is its initial
`None`; otherwise the class of the last exception caught. -/
inductive LastExc
  | noExc
  | osError
  | sshException
  | otherException
deriving DecidableEq, Repr

deriving instance DecidableEq for Except

/-- Everything observable about one `ssh_connect` call: the returned value
or raised error, the instance state afterwards, how many transport-level
connect attempts were made, and the total seconds passed to `sleep`. -/
structure ConnectResult where
  result : Except PyError SSHClient
  state : SSHState
  attemptsMade : Nat
  sleeps : Nat
deriving DecidableEq, Repr

def max_connection_attempts : Nat := 2

def retry_delay : Nat := 1

/-- The classification after the retry loop of `ssh_connect` exhausts:
`isinstance(last_exception, OSError)` raises `NetworkError`, an
`SSHException` raises `SSHConnectionError`, anything else `UnknownError`;
every branch first sets `ssh_connection_status = 0`. -/
def classifyLast (last : LastExc) (s : SSHState) (att sl : Nat) : ConnectResult :=
  match last with
  | .osError =>
      { result := .error (.networkError "Network error occurred")
        state := { s with ssh_connection_status := 0 }
        attemptsMade := att
        sleeps := sl }
  | .sshException =>
      { result := .error (.sshConnectionError "SSH Connection failed")
        state := { s with ssh_connection_status := 0 }
        attemptsMade := att
        sleeps := sl }
  | _ =>
      { result := .error (.unknownError "SSH Connection failed due to an unknown reason")
        state := { s with ssh_connection_status := 0 }
        attemptsMade := att
        sleeps := sl }

/-- The `for connection_attempts in range(max_connection_attempts)` loop of
`ssh_connect`.  `env i` is the outcome of the attempt with index `i`; `c`
is the `SSHClient` already stored in `s.ssh_session`; `remaining` counts
loop iterations still to run; `att` and `sl` accumulate attempts made and
seconds slept.  `sleep(retry_delay)` runs only when
`connection_attempts < max_connection_attempts - 1`, i.e. when another
iteration remains. -/
def connectLoop (env : Nat → ConnectOutcome) (c : SSHClient) (s : SSHState)
    (i : Nat) (remaining : Nat) (last : LastExc) (att : Nat) (sl : Nat) : ConnectResult :=
  match remaining with
  | 0 => classifyLast last s att sl
  | r + 1 =>
    match env i with
    | .success =>
        { result := .ok c
          state := { s with ssh_connection_status := 2 }
          attemptsMade := att + 1
          sleeps := sl }
    | .authException =>
        { result := .error (.sshAuthenticationError
            "Authentication failed, verify SSH Key and credentials")
          state := s
          attemptsMade := att + 1
          sleeps := sl }
    | .osError =>
        connectLoop env c s (i + 1) r .osError (att + 1)
          (if 0 < r then sl + retry_delay else sl)
    | .sshException =>
        connectLoop env c s (i + 1) r .sshException (att + 1)
          (if 0 < r then sl + retry_delay else sl)
    | .otherException =>
        connectLoop env c s (i + 1) r .otherException (att + 1)
          (if 0 < r then sl + retry_delay else sl)

/-- `SSHConnect.ssh_connect`.  If already connected and `force_connect` is
false it raises `SSHAlreadyConnectedError` before touching anything.
Otherwise it stores a fresh (not yet connected) client object `c` in
`ssh_session` and enters the retry loop. -/
def ssh_connect (env : Nat → ConnectOutcome) (c : SSHClient) (s : SSHState)
    (force_connect : Bool) : ConnectResult :=
  if s.ssh_connection_status == 2 && !force_connect then
    { result := .error (.sshAlreadyConnectedError "SSH Connection already established")
      state := s
      attemptsMade := 0
      sleeps := 0 }
  else
    connectLoop env c { s with ssh_session := some c } 0 max_connection_attempts .noExc 0 0

/-- Outcome of a `close()` call on a live session: returns normally,
raises a `paramiko.SSHException` or `OSError` (the pair the `except`
clauses catch), or raises some other exception. -/
inductive CloseOutcome
  | ok
  | sshOrOsExc
  | otherExc
deriving DecidableEq, Repr

/-- `SSHConnect.ssh_disconnect`.  When connected: close, set status 1,
clear the handle; a close-time `SSHException`/`OSError` is re-raised as
`SSHConnectionError` (before the status/handle updates run), any other
close-time exception propagates uncaught.  When status is 0 or 1 it raises
`SSHConnectionError` (which the `except` clause does not catch). -/
def ssh_disconnect (closeOut : CloseOutcome) (s : SSHState) :
    Except PyError Unit × SSHState :=
  if s.ssh_connection_status == 2 then
    match closeOut with
    | .ok => (.ok (), { s with ssh_connection_status := 1, ssh_session := none })
    | .sshOrOsExc => (.error (.sshConnectionError "SSH Disconnection failed"), s)
    | .otherExc => (.error (.raw .otherException), s)
  else if s.ssh_connection_status == 0 || s.ssh_connection_status == 1 then
    (.error (.sshConnectionError "SSH Disconnection failed: No SSH session to close"), s)
  else
    (.ok (), s)

/-- Outcome of constructing `SCPClient(self.ssh_session.get_transport())`:
success, a `paramiko.SSHException`/`OSError`, or another exception. -/
inductive MkScpOutcome
  | ok
  | sshOrOsExc
  | otherExc
deriving DecidableEq, Repr

/-- `SSHConnect.scp_connect`.  With the SSH session connected and a truthy
`ssh_session`, builds the `SCPClient` (`d` on success) and sets the SCP
status to 2.  With status 2 but a falsy `ssh_session` the function falls
off the end and returns `None`.  Otherwise it sets the SCP status to 0 and
raises `SCPConnectionError`; that raise happens inside the `try`, so the
bare `except Exception` clause catches it, sets the status to 0 again and
re-raises it wrapped once more.  A construction-time exception is wrapped
as `SCPConnectionError` with the SCP status set to 0. -/
def scp_connect (d : SCPClient) (mk : MkScpOutcome) (s : SSHState) :
    Except PyError (Option SCPClient) × SSHState :=
  if s.ssh_connection_status == 2 then
    match s.ssh_session with
    | some _ =>
      match mk with
      | .ok => (.ok (some d), { s with scp_session := some d, scp_connection_status := 2 })
      | .sshOrOsExc =>
          (.error (.scpConnectionError "SCP Connection failed"),
            { s with scp_connection_status := 0 })
      | .otherExc =>
          (.error (.scpConnectionError "SCP Connection failed"),
            { s with scp_connection_status := 0 })
    | none => (.ok none, s)
  else
    (.error (.scpConnectionError
        "SCP Connection failed: SCP Connection failed: No SSH session available"),
      { s with scp_connection_status := 0 })

/-- `SSHConnect.scp_disconnect`.  When connected: close, set status 1,
clear the handle; a close-time exception is re-raised as
`SCPConnectionError` before the updates run.  When status is 0 or 1 it
raises `SCPConnectionError`; that raise is inside the `try`, so the bare
`except Exception` clause catches it and re-raises it wrapped. -/
def scp_disconnect (closeOut : CloseOutcome) (s : SSHState) :
    Except PyError Unit × SSHState :=
  if s.scp_connection_status == 2 then
    match closeOut with
    | .ok => (.ok (), { s with scp_connection_status := 1, scp_session := none })
    | .sshOrOsExc => (.error (.scpConnectionError "SCP Disconnection failed"), s)
    | .otherExc =>
        (.error (.scpConnectionError "SCP Disconnection failed for an unknown reason"), s)
  else if s.scp_connection_status == 0 || s.scp_connection_status == 1 then
    (.error (.scpConnectionError
        ("SCP Disconnection failed for an unknown reason: " ++
          "SCP Disconnection failed: No SCP session to close")), s)
  else
    (.ok (), s)

/-- Re-wrapping in `disconnect_all`: an `SCPConnectionError` or
`SSHConnectionError` from a component is re-raised as `SSHError`; anything
else (e.g. an uncaught close-time exception) propagates as is. -/
def wrapDisconnectAll (e : PyError) : Except PyError Unit :=
  match e with
  | .scpConnectionError _ => .error (.sshError "An error occurred when disconnecting all sessions")
  | .sshConnectionError _ => .error (.sshError "An error occurred when disconnecting all sessions")
  | _ => .error e

/-- The second half of `disconnect_all`: close the SSH session if its
status is 2, wrapping a raised error. -/
def disconnectAllSSHPhase (sshClose : CloseOutcome) (s : SSHState) :
    Except PyError Unit × SSHState :=
  if s.ssh_connection_status == 2 then
    match ssh_disconnect sshClose s with
    | (.ok _, s2) => (.ok (), s2)
    | (.error e, s2) => (wrapDisconnectAll e, s2)
  else
    (.ok (), s)

/-- `SSHConnect.disconnect_all`: close the SCP session if its status is 2,
then the SSH session if its status is 2; the first exception aborts the
sequence and is wrapped by `wrapDisconnectAll`. -/
def disconnect_all (scpClose sshClose : CloseOutcome) (s : SSHState) :
    Except PyError Unit × SSHState :=
  if s.scp_connection_status == 2 then
    match scp_disconnect scpClose s with
    | (.ok _, s1) => disconnectAllSSHPhase sshClose s1
    | (.error e, s1) => (wrapDisconnectAll e, s1)
  else
    disconnectAllSSHPhase sshClose s

/-- Remote behaviour of one `exec_command` call: either the call itself
raises, or the command runs and `readlines()` returns `output` (each
entry still carrying its line terminator as produced by the remote) and
`recv_exit_status()` returns `exitStatus`. -/
inductive ExecBehavior
  | raises (e : Exc)
  | returns (output : List String) (exitStatus : Int)
deriving DecidableEq, Repr

/-- Remove every occurrence of the character `c` from a string; this is
exactly what Python's `s.replace(p, "")` does when the pattern `p` is the
single character `c`. -/
def removeChar (c : Char) (s : String) : String :=
  ⟨s.data.filter (fun a => a != c)⟩

/-- The per-line cleanup of the captured variants:
`s.replace("\n", "").replace("\r", "")` — first every LF, then every CR
character is removed. -/
def stripLine (line : String) : String :=
  removeChar '\r' (removeChar '\n' line)

/-- `SSHCommands.execute_command` (fire and forget).  The `parse`
parameter is accepted and never used.  Connected: dispatch the command,
ignore its output and exit status; an exception from `exec_command`
propagates uncaught.  Status 0 or 1: raise `ExecuteCommandError` without
touching the transport. -/
def execute_command {α : Type} (command : String) (p : α) (b : ExecBehavior)
    (s : SSHState) : Except PyError Unit × SSHState :=
  if s.ssh_connection_status == 2 then
    match b with
    | .raises e => (.error (.raw e), s)
    | .returns _ _ => (.ok (), s)
  else if s.ssh_connection_status == 0 || s.ssh_connection_status == 1 then
    (.error (.executeCommandError "SSH Command execution failed: No SSH session available"), s)
  else
    (.ok (), s)

/-- `SSHCommands.execute_command_with_output`.  The body runs only under
`if self.ssh_connection_status == 2:`; there is no other branch, so on a
session that is not connected the function returns `None` (modelled
`.ok none`).  Connected: read all lines; empty output raises
`ExecuteCommandError`; otherwise return the lines with CR and LF
characters removed. -/
def execute_command_with_output (command : String) (b : ExecBehavior)
    (s : SSHState) : Except PyError (Option (List String)) × SSHState :=
  if s.ssh_connection_status == 2 then
    match b with
    | .raises e => (.error (.raw e), s)
    | .returns output _ =>
      if output.isEmpty then
        (.error (.executeCommandError "The command did not return any output"), s)
      else
        (.ok (some (output.map stripLine)), s)
  else
    (.ok none, s)

/-- `SSHCommands.execute_command_with_exit_status`.  Same silent `None`
on a session that is not connected.  Connected: read all lines, close
stdin, shut down the write side, retrieve the exit status; empty output
raises `ExecuteCommandError`; a falsy exit status (the integer 0) raises
`ExecuteCommandError`; otherwise return the cleaned lines and the
status. -/
def execute_command_with_exit_status (command : String) (b : ExecBehavior)
    (s : SSHState) : Except PyError (Option (List String × Int)) × SSHState :=
  if s.ssh_connection_status == 2 then
    match b with
    | .raises e => (.error (.raw e), s)
    | .returns output es =>
      if output.isEmpty then
        (.error (.executeCommandError "The command did not return any output"), s)
      else if es == 0 then
        (.error (.executeCommandError "The command did not return an exit status"), s)
      else
        (.ok (some (output.map stripLine, es)), s)
  else
    (.ok none, s)

/-- Outcome of the underlying `scp_session.put` / `scp_session.get` call,
classified by the exception classes the `except` clauses distinguish.
Per the platform contract, `put` on a local path that does not exist
raises `FileNotFoundError`. -/
inductive PutOutcome
  | ok
  | fileNotFoundError
  | permissionError
  | timeoutError
  | osError
  | scpException
  | sshException
  | otherException
deriving DecidableEq, Repr

/-- `SCPFileTransfer.push_file`.  SCP status other than 2: raise
`SCPConnectionError` without attempting the copy.  Otherwise map each
exception of `put` to an `SCPTransferError`.  No branch writes a status
field. -/
def push_file (local_path remote_path : String) (put : PutOutcome)
    (s : SSHState) : Except PyError Unit × SSHState :=
  if s.scp_connection_status != 2 then
    (.error (.scpConnectionError "There is no established SCP connection"), s)
  else
    match put with
    | .ok => (.ok (), s)
    | .fileNotFoundError => (.error (.scpTransferError "Local file not found"), s)
    | .permissionError => (.error (.scpTransferError "Permission denied"), s)
    | .timeoutError => (.error (.scpTransferError "SCP operation timed out"), s)
    | .osError => (.error (.scpTransferError "Unknown OS error"), s)
    | .scpException => (.error (.scpTransferError "Remote path does not exist"), s)
    | .sshException => (.error (.scpTransferError "SSH Connection failed during SCP Put"), s)
    | .otherException =>
        (.error (.scpTransferError "Unexpected exception occurred during SCP Put"), s)

/-- `SCPFileTransfer.pull_file`.  Same precondition as `push_file`; its
own mapping from `get`-time exceptions to `SCPTransferError`.  No branch
writes a status field. -/
def pull_file (local_path remote_path : String) (put : PutOutcome)
    (s : SSHState) : Except PyError Unit × SSHState :=
  if s.scp_connection_status != 2 then
    (.error (.scpConnectionError "There is no established SCP connection"), s)
  else
    match put with
    | .ok => (.ok (), s)
    | .scpException => (.error (.scpTransferError "Unknown SCP error occurred"), s)
    | .sshException => (.error (.scpTransferError "SSH error occurred during SCP operation"), s)
    | .permissionError => (.error (.scpTransferError "Permission denied"), s)
    | .fileNotFoundError => (.error (.scpTransferError "Local path does not exist"), s)
    | .timeoutError => (.error (.scpTransferError "SCP operation timed out"), s)
    | .osError => (.error (.scpTransferError "Unknown OS error"), s)
    | .otherException =>
        (.error (.scpTransferError "Unexpected error occurred during SCP operation"), s)

/-- One public operation of the layer, with its transport oracle
arguments. -/
inductive Op
  | opConnect (env : Nat → ConnectOutcome) (c : SSHClient) (force : Bool)
  | opDisconnect (closeOut : CloseOutcome)
  | opScpConnect (d : SCPClient) (mk : MkScpOutcome)
  | opScpDisconnect (closeOut : CloseOutcome)
  | opDisconnectAll (scpClose sshClose : CloseOutcome)
  | opExecute (cmd : String) (p : Bool) (b : ExecBehavior)
  | opExecuteWithOutput (cmd : String) (b : ExecBehavior)
  | opExecuteWithExitStatus (cmd : String) (b : ExecBehavior)
  | opPushFile (lp rp : String) (put : PutOutcome)
  | opPullFile (lp rp : String) (put : PutOutcome)

/-- The state after running one public operation (normal return and raise
alike leave the instance in the state the operation produced). -/
def step (s : SSHState) (op : Op) : SSHState :=
  match op with
  | .opConnect env c force => (ssh_connect env c s force).state
  | .opDisconnect o => (ssh_disconnect o s).2
  | .opScpConnect d mk => (scp_connect d mk s).2
  | .opScpDisconnect o => (scp_disconnect o s).2
  | .opDisconnectAll a b => (disconnect_all a b s).2
  | .opExecute cmd p b => (execute_command cmd p b s).2
  | .opExecuteWithOutput cmd b => (execute_command_with_output cmd b s).2
  | .opExecuteWithExitStatus cmd b => (execute_command_with_exit_status cmd b s).2
  | .opPushFile lp rp put => (push_file lp rp put s).2
  | .opPullFile lp rp put => (pull_file lp rp put s).2

/-- Run a sequence of public operations from a state. -/
def run (s : SSHState) (ops : List Op) : SSHState :=
  ops.foldl step s

/-- The Transport Session invariant claimed by the spec: the stored
transport handle is non-null exactly when the status is Connected (2). -/
def sshInvariant (s : SSHState) : Prop :=
  s.ssh_session.isSome = true ↔ s.ssh_connection_status = 2

instance (s : SSHState) : Decidable (sshInvariant s) := by
  unfold sshInvariant
  infer_instance

/-- The direction of the Transport Session invariant that the code does
maintain: a Connected status implies a stored handle. -/
def weakInv (s : SSHState) : Prop :=
  s.ssh_connection_status = 2 → s.ssh_session.isSome = true

/-- The error `ssh_connect` raises after retry exhaustion, as a function
of the class of the last observed failure (mirrors the `isinstance`
chain after the loop). -/
def classifyOutcome (o : ConnectOutcome) : PyError :=
  match o with
  | .osError => .networkError "Network error occurred"
  | .sshException => .sshConnectionError "SSH Connection failed"
  | _ => .unknownError "SSH Connection failed due to an unknown reason"

/-- An attempt outcome that `ssh_connect` treats as retryable: a
socket-level failure, a transport-protocol failure, or any other
unexpected exception. -/
def retryable (o : ConnectOutcome) : Prop :=
  o = ConnectOutcome.osError ∨ o = ConnectOutcome.sshException ∨
    o = ConnectOutcome.otherException

/-- A state with the Transport Session connected and no transfer
channel. -/
def sampleConnected : SSHState :=
  { ssh_session := some ⟨1⟩
    scp_session := none
    ssh_connection_status := 2
    scp_connection_status := 1 }

/-- A state with both the Transport Session and the Transfer Channel
connected. -/
def sampleBothConnected : SSHState :=
  { ssh_session := some ⟨1⟩
    scp_session := some ⟨2⟩
    ssh_connection_status := 2
    scp_connection_status := 2 }

/-- Connect, then open the transfer channel, both successfully. -/
def openBoth : List Op :=
  [Op.opConnect (fun _ => ConnectOutcome.success) ⟨1⟩ false,
   Op.opScpConnect ⟨2⟩ MkScpOutcome.ok]

/-- The retry loop never changes the stored SSH handle: the handle is
written before the loop is entered. -/
theorem connectLoop_session (env : Nat → ConnectOutcome) (c : SSHClient) (s : SSHState)
    (i r : Nat) (last : LastExc) (att sl : Nat) :
    (connectLoop env c s i r last att sl).state.ssh_session = s.ssh_session := by
  induction r generalizing i last att sl with
  | zero => cases last <;> rfl
  | succ r ih =>
    unfold connectLoop
    cases env i with
    | success => rfl
    | authException => rfl
    | osError =>
        exact ih (i + 1) LastExc.osError (att + 1) (if 0 < r then sl + retry_delay else sl)
    | sshException =>
        exact ih (i + 1) LastExc.sshException (att + 1) (if 0 < r then sl + retry_delay else sl)
    | otherException =>
        exact ih (i + 1) LastExc.otherException (att + 1) (if 0 < r then sl + retry_delay else sl)

/-- `ssh_connect` preserves the weak invariant. -/
theorem ssh_connect_weak (env : Nat → ConnectOutcome) (c : SSHClient) (s : SSHState)
    (force : Bool) (h : weakInv s) : weakInv (ssh_connect env c s force).state := by
  unfold ssh_connect
  split
  · exact h
  · intro _
    rw [connectLoop_session]
    rfl

/-- `ssh_disconnect` either leaves the state unchanged or resets the SSH
fields to Disconnected/absent. -/
theorem ssh_disconnect_cases (o : CloseOutcome) (s : SSHState) :
    (ssh_disconnect o s).2 = s ∨
    (ssh_disconnect o s).2 = { s with ssh_connection_status := 1, ssh_session := none } := by
  unfold ssh_disconnect
  split
  · cases o with
    | ok => right; rfl
    | sshOrOsExc => left; rfl
    | otherExc => left; rfl
  · split
    · left; rfl
    · left; rfl

/-- `ssh_disconnect` never touches the SCP fields. -/
theorem ssh_disconnect_scp_frame (o : CloseOutcome) (s : SSHState) :
    (ssh_disconnect o s).2.scp_connection_status = s.scp_connection_status ∧
    (ssh_disconnect o s).2.scp_session = s.scp_session := by
  rcases ssh_disconnect_cases o s with hc | hc <;> rw [hc] <;> exact ⟨rfl, rfl⟩

/-- `ssh_disconnect` preserves the weak invariant. -/
theorem ssh_disconnect_weak (o : CloseOutcome) (s : SSHState) (h : weakInv s) :
    weakInv (ssh_disconnect o s).2 := by
  rcases ssh_disconnect_cases o s with hc | hc <;> rw [hc]
  · exact h
  · intro h2
    simp at h2

/-- `scp_connect` never touches the SSH fields. -/
theorem scp_connect_ssh_frame (d : SCPClient) (mk : MkScpOutcome) (s : SSHState) :
    (scp_connect d mk s).2.ssh_session = s.ssh_session ∧
    (scp_connect d mk s).2.ssh_connection_status = s.ssh_connection_status := by
  unfold scp_connect
  split
  · cases h : s.ssh_session with
    | none => exact ⟨h, rfl⟩
    | some a => cases mk <;> exact ⟨rfl, rfl⟩
  · exact ⟨rfl, rfl⟩

/-- `scp_disconnect` never touches the SSH fields. -/
theorem scp_disconnect_ssh_frame (o : CloseOutcome) (s : SSHState) :
    (scp_disconnect o s).2.ssh_session = s.ssh_session ∧
    (scp_disconnect o s).2.ssh_connection_status = s.ssh_connection_status := by
  unfold scp_disconnect
  split
  · cases o <;> exact ⟨rfl, rfl⟩
  · split
    · exact ⟨rfl, rfl⟩
    · exact ⟨rfl, rfl⟩

/-- `scp_disconnect` preserves the weak invariant. -/
theorem scp_disconnect_weak (o : CloseOutcome) (s : SSHState) (h : weakInv s) :
    weakInv (scp_disconnect o s).2 := by
  intro h2
  rw [(scp_disconnect_ssh_frame o s).2] at h2
  rw [(scp_disconnect_ssh_frame o s).1]
  exact h h2

/-- The SSH phase of `disconnect_all` results in the state of the inner
`ssh_disconnect`, or leaves the state alone. -/
theorem sshPhase_state (b : CloseOutcome) (s : SSHState) :
    (disconnectAllSSHPhase b s).2 = s ∨
    (disconnectAllSSHPhase b s).2 = (ssh_disconnect b s).2 := by
  unfold disconnectAllSSHPhase
  split
  · right
    rcases hr : ssh_disconnect b s with ⟨r, s2⟩
    cases r <;> rfl
  · left; rfl

/-- The state after `disconnect_all` is the state after one of the four
possible sub-sequences of its component closes. -/
theorem disconnect_all_state (a b : CloseOutcome) (s : SSHState) :
    (disconnect_all a b s).2 = s ∨
    (disconnect_all a b s).2 = (scp_disconnect a s).2 ∨
    (disconnect_all a b s).2 = (ssh_disconnect b s).2 ∨
    (disconnect_all a b s).2 = (ssh_disconnect b (scp_disconnect a s).2).2 := by
  unfold disconnect_all
  split
  · rcases hr : scp_disconnect a s with ⟨r, s1⟩
    cases r with
    | ok v =>
      rcases sshPhase_state b s1 with h2 | h2
      · right; left; exact h2
      · right; right; right; exact h2
    | error e =>
      right; left; rfl
  · rcases sshPhase_state b s with h2 | h2
    · left; exact h2
    · right; right; left; exact h2

/-- `disconnect_all` preserves the weak invariant. -/
theorem disconnect_all_weak (a b : CloseOutcome) (s : SSHState) (h : weakInv s) :
    weakInv (disconnect_all a b s).2 := by
  rcases disconnect_all_state a b s with hc | hc | hc | hc <;> rw [hc]
  · exact h
  · exact scp_disconnect_weak a s h
  · exact ssh_disconnect_weak b s h
  · exact ssh_disconnect_weak b _ (scp_disconnect_weak a s h)

/-- `execute_command` never changes the instance state. -/
theorem execute_command_state {α : Type} (cmd : String) (p : α) (b : ExecBehavior)
    (s : SSHState) : (execute_command cmd p b s).2 = s := by
  unfold execute_command
  split
  · cases b <;> rfl
  · split
    · rfl
    · rfl

/-- `execute_command_with_output` never changes the instance state. -/
theorem execute_command_with_output_state (cmd : String) (b : ExecBehavior)
    (s : SSHState) : (execute_command_with_output cmd b s).2 = s := by
  unfold execute_command_with_output
  split
  · split
    · rfl
    · split
      · rfl
      · rfl
  · rfl

/-- `execute_command_with_exit_status` never changes the instance
state. -/
theorem execute_command_with_exit_status_state (cmd : String) (b : ExecBehavior)
    (s : SSHState) : (execute_command_with_exit_status cmd b s).2 = s := by
  unfold execute_command_with_exit_status
  split
  · split
    · rfl
    · split
      · rfl
      · split
        · rfl
        · rfl
  · rfl

/-- `push_file` never changes the instance state. -/
theorem push_file_state (lp rp : String) (put : PutOutcome) (s : SSHState) :
    (push_file lp rp put s).2 = s := by
  unfold push_file
  split
  · rfl
  · cases put <;> rfl

/-- `pull_file` never changes the instance state. -/
theorem pull_file_state (lp rp : String) (put : PutOutcome) (s : SSHState) :
    (pull_file lp rp put s).2 = s := by
  unfold pull_file
  split
  · rfl
  · cases put <;> rfl

/-- Every public operation preserves the weak invariant. -/
theorem step_weak (s : SSHState) (op : Op) (h : weakInv s) : weakInv (step s op) := by
  cases op with
  | opConnect env c force => exact ssh_connect_weak env c s force h
  | opDisconnect o => exact ssh_disconnect_weak o s h
  | opScpConnect d mk =>
      intro h2
      rw [show step s (Op.opScpConnect d mk) = (scp_connect d mk s).2 from rfl] at h2 ⊢
      rw [(scp_connect_ssh_frame d mk s).2] at h2
      rw [(scp_connect_ssh_frame d mk s).1]
      exact h h2
  | opScpDisconnect o => exact scp_disconnect_weak o s h
  | opDisconnectAll a b => exact disconnect_all_weak a b s h
  | opExecute cmd p b =>
      rw [show step s (Op.opExecute cmd p b) = (execute_command cmd p b s).2 from rfl,
        execute_command_state]
      exact h
  | opExecuteWithOutput cmd b =>
      rw [show step s (Op.opExecuteWithOutput cmd b) = (execute_command_with_output cmd b s).2
          from rfl, execute_command_with_output_state]
      exact h
  | opExecuteWithExitStatus cmd b =>
      rw [show step s (Op.opExecuteWithExitStatus cmd b) =
          (execute_command_with_exit_status cmd b s).2 from rfl,
        execute_command_with_exit_status_state]
      exact h
  | opPushFile lp rp put =>
      rw [show step s (Op.opPushFile lp rp put) = (push_file lp rp put s).2 from rfl,
        push_file_state]
      exact h
  | opPullFile lp rp put =>
      rw [show step s (Op.opPullFile lp rp put) = (pull_file lp rp put s).2 from rfl,
        pull_file_state]
      exact h

/-- Claim C1: on a session whose status is not Connected, the two
captured-output operations do not raise `ExecuteCommandError` — their
bodies run only under `if self.ssh_connection_status == 2:` with no other
branch, so they silently return `None` without touching the transport.
This contradicts the spec and the raising sibling `execute_command`; the
claim is recorded as a code bug, and this theorem evaluates the code at
the failing inputs. -/
theorem C1_captured_silent_none (s : SSHState) (cmd : String) (b : ExecBehavior)
    (h : s.ssh_connection_status ≠ 2) :
    execute_command_with_output cmd b s = (Except.ok none, s) ∧
    execute_command_with_exit_status cmd b s = (Except.ok none, s) := by
  have hb : (s.ssh_connection_status == 2) = false := by
    simp [h]
  constructor
  · unfold execute_command_with_output
    rw [hb]
    simp
  · unfold execute_command_with_exit_status
    rw [hb]
    simp

/-- Witness for C1: a freshly created (Disconnected) session, the command
"ls", and a remote that would have produced output. -/
theorem C1_captured_silent_none_witness :
    initState.ssh_connection_status ≠ 2 ∧
    (execute_command_with_output "ls" (ExecBehavior.returns (("ok" ++ "\n") :: []) 1)
        initState = (Except.ok none, initState) ∧
      execute_command_with_exit_status "ls" (ExecBehavior.returns (("ok" ++ "\n") :: []) 1)
        initState = (Except.ok none, initState)) :=
  ⟨by decide,
    C1_captured_silent_none initState "ls" (ExecBehavior.returns (("ok" ++ "\n") :: []) 1)
      (by decide)⟩

/-- Claim C2 counterexample: one `ssh_connect` call from the fresh state
whose two attempts both fail at the socket level leaves the stored
handle non-null (the `SSHClient` object created before the retry loop)
while the status is 0 (Failed) — the claimed two-sided invariant is
violated after this reachable operation sequence. -/
theorem C2_counterexample :
    ¬ sshInvariant (run initState
      [Op.opConnect (fun _ => ConnectOutcome.osError) ⟨0⟩ false]) := by
  decide

/-- Claim C2 (amended): along every sequence of public operations from
the fresh state, only one direction of the claimed invariant holds — a
Connected status implies a non-null stored handle.  The converse fails
after a failed connect, which stores an unconnected client object
without setting the status to Connected. -/
theorem C2_amended_connected_has_handle (ops : List Op)
    (h : (run initState ops).ssh_connection_status = 2) :
    (run initState ops).ssh_session.isSome = true := by
  have hall : ∀ (l : List Op) (s : SSHState), weakInv s → weakInv (List.foldl step s l) := by
    intro l
    induction l with
    | nil => intro s hs; exact hs
    | cons a t ih => intro s hs; exact ih (step s a) (step_weak s a hs)
  exact hall ops initState (fun h2 => absurd h2 (by decide)) h

/-- Witness for the amended C2: a successful connect reaches Connected
status and a stored handle. -/
theorem C2_amended_connected_has_handle_witness :
    SSHState.ssh_connection_status
        (run initState [Op.opConnect (fun _ => ConnectOutcome.success) ⟨0⟩ false]) = 2 ∧
    Option.isSome (SSHState.ssh_session
        (run initState [Op.opConnect (fun _ => ConnectOutcome.success) ⟨0⟩ false])) = true :=
  ⟨by decide, C2_amended_connected_has_handle _ (by decide)⟩

/-- Claim C7: a second `ssh_connect` on a Connected session with
`force_connect` false raises `SSHAlreadyConnectedError` with zero
transport attempts and zero delay, and the whole instance state — the
stored handle in particular — is exactly what it was. -/
theorem C7_already_connected (s : SSHState) (env : Nat → ConnectOutcome) (c : SSHClient)
    (h : s.ssh_connection_status = 2) :
    ssh_connect env c s false =
      { result := Except.error (PyError.sshAlreadyConnectedError
          "SSH Connection already established")
        state := s
        attemptsMade := 0
        sleeps := 0 } := by
  unfold ssh_connect
  rw [if_pos]
  simp [h]

/-- Witness for C7 on a concrete Connected state. -/
theorem C7_already_connected_witness :
    sampleConnected.ssh_connection_status = 2 ∧
    ssh_connect (fun _ => ConnectOutcome.success) ⟨5⟩ sampleConnected false =
      { result := Except.error (PyError.sshAlreadyConnectedError
          "SSH Connection already established")
        state := sampleConnected
        attemptsMade := 0
        sleeps := 0 } :=
  ⟨by decide,
    C7_already_connected sampleConnected (fun _ => ConnectOutcome.success) ⟨5⟩ (by decide)⟩

/-- Claim C10: the `parse` parameter of `execute_command` is dead — two
calls differing only in `parse` (even in its type) agree on the returned
value, the raised error and the resulting state. -/
theorem C10_parse_has_no_effect {α β : Type} (cmd : String) (p1 : α) (p2 : β)
    (b : ExecBehavior) (s : SSHState) :
    execute_command cmd p1 b s = execute_command cmd p2 b s := rfl

/-- Claim C3 counterexample: connect, open the transfer channel, then
disconnect the Transport Session successfully — the Transfer Channel
status is still 2 (Connected), and a subsequent push passes its
precondition check and attempts the copy over the closed transport,
contradicting the claimed implicit invalidation. -/
theorem C3_counterexample :
    SSHState.scp_connection_status (run initState openBoth) = 2 ∧
    (ssh_disconnect CloseOutcome.ok (run initState openBoth)).1 = Except.ok () ∧
    SSHState.scp_connection_status ((ssh_disconnect CloseOutcome.ok
      (run initState openBoth)).2) = 2 ∧
    (push_file "./a" "/b" PutOutcome.ok
      ((ssh_disconnect CloseOutcome.ok (run initState openBoth)).2)).1 = Except.ok () := by
  decide

/-- Claim C3 (amended): `ssh_disconnect` leaves the Transfer Channel
fields untouched; a channel open before the disconnect is still reported
Connected afterwards, so a subsequent push or pull passes the
precondition check (it never fails with the "no established transfer
connection" error) and attempts the copy. -/
theorem C3_amended_channel_survives (s : SSHState) (o : CloseOutcome)
    (lp rp : String) (put : PutOutcome) (h : s.scp_connection_status = 2) :
    SSHState.scp_connection_status ((ssh_disconnect o s).2) = 2 ∧
    SSHState.scp_session ((ssh_disconnect o s).2) = s.scp_session ∧
    (push_file lp rp put ((ssh_disconnect o s).2)).1 ≠
      Except.error (PyError.scpConnectionError "There is no established SCP connection") ∧
    (pull_file lp rp put ((ssh_disconnect o s).2)).1 ≠
      Except.error (PyError.scpConnectionError "There is no established SCP connection") := by
  have h1 : SSHState.scp_connection_status ((ssh_disconnect o s).2) = 2 := by
    rw [(ssh_disconnect_scp_frame o s).1]
    exact h
  refine ⟨h1, (ssh_disconnect_scp_frame o s).2, ?_, ?_⟩
  · unfold push_file
    split
    · next hcond => exact absurd (by simpa using hcond) (by simp [h1])
    · cases put <;> simp
  · unfold pull_file
    split
    · next hcond => exact absurd (by simpa using hcond) (by simp [h1])
    · cases put <;> simp

/-- Witness for the amended C3 on a concrete state with both the session
and the channel connected. -/
theorem C3_amended_channel_survives_witness :
    sampleBothConnected.scp_connection_status = 2 ∧
    (SSHState.scp_connection_status
        ((ssh_disconnect CloseOutcome.ok sampleBothConnected).2) = 2 ∧
      SSHState.scp_session ((ssh_disconnect CloseOutcome.ok sampleBothConnected).2) =
        sampleBothConnected.scp_session ∧
      (push_file "./a" "/b" PutOutcome.ok
          ((ssh_disconnect CloseOutcome.ok sampleBothConnected).2)).1 ≠
        Except.error (PyError.scpConnectionError "There is no established SCP connection") ∧
      (pull_file "./a" "/b" PutOutcome.ok
          ((ssh_disconnect CloseOutcome.ok sampleBothConnected).2)).1 ≠
        Except.error (PyError.scpConnectionError "There is no established SCP connection")) :=
  ⟨by decide,
    C3_amended_channel_survives sampleBothConnected CloseOutcome.ok "./a" "/b"
      PutOutcome.ok (by decide)⟩

/-- Claim C5 counterexample: `scp_connect` on the fresh (Disconnected)
state fails its precondition check and raises, yet it changes the
channel status field (from 1 to 0) — it is not free of side effects on
status. -/
theorem C5_counterexample :
    initState.ssh_connection_status ≠ 2 ∧
    (scp_connect ⟨0⟩ MkScpOutcome.ok initState).1 = Except.error (PyError.scpConnectionError
      "SCP Connection failed: SCP Connection failed: No SSH session available") ∧
    SSHState.scp_connection_status ((scp_connect ⟨0⟩ MkScpOutcome.ok initState).2) ≠
      initState.scp_connection_status := by
  decide

/-- Claim C5 (amended): every operation other than connect that fails its
precondition check leaves the status fields unchanged, with one
exception: `scp_connect` on a session that is not Connected raises
`SCPConnectionError` and also sets the channel status to 0 (Failed),
leaving the other three fields unchanged.  push/pull, the disconnects and
the command operations change nothing on a precondition failure. -/
theorem C5_amended_precondition_effects (s : SSHState) (d : SCPClient) (mk : MkScpOutcome)
    (o : CloseOutcome) (lp rp : String) (put : PutOutcome) (cmd : String)
    (p : Bool) (b : ExecBehavior)
    (hssh : s.ssh_connection_status ≠ 2) (hscp : s.scp_connection_status ≠ 2) :
    (scp_connect d mk s).1 = Except.error (PyError.scpConnectionError
      "SCP Connection failed: SCP Connection failed: No SSH session available") ∧
    (scp_connect d mk s).2 = { s with scp_connection_status := 0 } ∧
    (push_file lp rp put s).1 = Except.error (PyError.scpConnectionError
      "There is no established SCP connection") ∧
    (push_file lp rp put s).2 = s ∧
    (pull_file lp rp put s).1 = Except.error (PyError.scpConnectionError
      "There is no established SCP connection") ∧
    (pull_file lp rp put s).2 = s ∧
    (ssh_disconnect o s).2 = s ∧
    (scp_disconnect o s).2 = s ∧
    (execute_command cmd p b s).2 = s ∧
    (execute_command_with_output cmd b s).2 = s ∧
    (execute_command_with_exit_status cmd b s).2 = s := by
  refine ⟨?_, ?_, ?_, push_file_state lp rp put s, ?_, pull_file_state lp rp put s,
    ?_, ?_, execute_command_state cmd p b s, execute_command_with_output_state cmd b s,
    execute_command_with_exit_status_state cmd b s⟩
  · unfold scp_connect
    split
    · next hcond => exact absurd (by simpa using hcond) hssh
    · rfl
  · unfold scp_connect
    split
    · next hcond => exact absurd (by simpa using hcond) hssh
    · rfl
  · unfold push_file
    split
    · rfl
    · next hcond => exact absurd (by simpa using hcond) hscp
  · unfold pull_file
    split
    · rfl
    · next hcond => exact absurd (by simpa using hcond) hscp
  · unfold ssh_disconnect
    split
    · next hcond => exact absurd (by simpa using hcond) hssh
    · split <;> rfl
  · unfold scp_disconnect
    split
    · next hcond => exact absurd (by simpa using hcond) hscp
    · split <;> rfl

/-- Witness for the amended C5 on the fresh state. -/
theorem C5_amended_precondition_effects_witness :
    initState.ssh_connection_status ≠ 2 ∧ initState.scp_connection_status ≠ 2 ∧
    ((scp_connect ⟨0⟩ MkScpOutcome.ok initState).1 = Except.error (PyError.scpConnectionError
        "SCP Connection failed: SCP Connection failed: No SSH session available") ∧
      (scp_connect ⟨0⟩ MkScpOutcome.ok initState).2 =
        { initState with scp_connection_status := 0 } ∧
      (push_file "./a" "/b" PutOutcome.ok initState).1 =
        Except.error (PyError.scpConnectionError "There is no established SCP connection") ∧
      (push_file "./a" "/b" PutOutcome.ok initState).2 = initState ∧
      (pull_file "./a" "/b" PutOutcome.ok initState).1 =
        Except.error (PyError.scpConnectionError "There is no established SCP connection") ∧
      (pull_file "./a" "/b" PutOutcome.ok initState).2 = initState ∧
      (ssh_disconnect CloseOutcome.ok initState).2 = initState ∧
      (scp_disconnect CloseOutcome.ok initState).2 = initState ∧
      (execute_command "ls" true (ExecBehavior.returns [] 0) initState).2 = initState ∧
      (execute_command_with_output "ls" (ExecBehavior.returns [] 0) initState).2 = initState ∧
      (execute_command_with_exit_status "ls" (ExecBehavior.returns [] 0) initState).2 =
        initState) :=
  ⟨by decide, by decide,
    C5_amended_precondition_effects initState ⟨0⟩ MkScpOutcome.ok CloseOutcome.ok
      "./a" "/b" PutOutcome.ok "ls" true (ExecBehavior.returns [] 0)
      (by decide) (by decide)⟩

/-- Claim C9: push and pull on a channel that is not Connected raise the
"no established transfer connection" `SCPConnectionError` without
attempting the copy (and without changing state); on a Connected
channel, a push whose local file does not exist — the underlying copy
raising `FileNotFoundError` — raises `SCPTransferError` ("Local file not
found"). -/
theorem C9_transfer_preconditions (s t : SSHState) (lp rp : String) (put : PutOutcome)
    (hs : s.scp_connection_status ≠ 2) (ht : t.scp_connection_status = 2) :
    (push_file lp rp put s).1 = Except.error (PyError.scpConnectionError
      "There is no established SCP connection") ∧
    (push_file lp rp put s).2 = s ∧
    (pull_file lp rp put s).1 = Except.error (PyError.scpConnectionError
      "There is no established SCP connection") ∧
    (pull_file lp rp put s).2 = s ∧
    (push_file lp rp PutOutcome.fileNotFoundError t).1 =
      Except.error (PyError.scpTransferError "Local file not found") := by
  refine ⟨?_, push_file_state lp rp put s, ?_, pull_file_state lp rp put s, ?_⟩
  · unfold push_file
    split
    · rfl
    · next hcond => exact absurd (by simpa using hcond) hs
  · unfold pull_file
    split
    · rfl
    · next hcond => exact absurd (by simpa using hcond) hs
  · unfold push_file
    split
    · next hcond => exact absurd ht (by simpa using hcond)
    · rfl

/-- Witness for C9: the fresh state for the precondition failures and a
state with an open channel for the missing-local-file push. -/
theorem C9_transfer_preconditions_witness :
    initState.scp_connection_status ≠ 2 ∧
    sampleBothConnected.scp_connection_status = 2 ∧
    ((push_file "./a" "/b" PutOutcome.ok initState).1 =
        Except.error (PyError.scpConnectionError "There is no established SCP connection") ∧
      (push_file "./a" "/b" PutOutcome.ok initState).2 = initState ∧
      (pull_file "./a" "/b" PutOutcome.ok initState).1 =
        Except.error (PyError.scpConnectionError "There is no established SCP connection") ∧
      (pull_file "./a" "/b" PutOutcome.ok initState).2 = initState ∧
      (push_file "./a" "/b" PutOutcome.fileNotFoundError sampleBothConnected).1 =
        Except.error (PyError.scpTransferError "Local file not found")) :=
  ⟨by decide, by decide,
    C9_transfer_preconditions initState sampleBothConnected "./a" "/b" PutOutcome.ok
      (by decide) (by decide)⟩

/-- Claim C4: on a non-Connected session, an authentication rejection on
the first attempt aborts immediately — one transport attempt, no delay,
`SSHAuthenticationError`; retryable failures (socket-level,
transport-protocol, or other unexpected) are retried for exactly 2 total
attempts with a 1-second delay in between, after which the status is 0
(Failed) and the raised error is classified from the last observed
failure: `NetworkError` for a socket-level cause, `SSHConnectionError`
for a transport-protocol cause, `UnknownError` otherwise. -/
theorem C4_retry_and_classification (s : SSHState) (c : SSHClient) (force : Bool)
    (envA envR : Nat → ConnectOutcome)
    (h : s.ssh_connection_status ≠ 2)
    (hA : envA 0 = ConnectOutcome.authException)
    (hR0 : retryable (envR 0)) (hR1 : retryable (envR 1)) :
    ((ssh_connect envA c s force).result = Except.error (PyError.sshAuthenticationError
        "Authentication failed, verify SSH Key and credentials") ∧
      (ssh_connect envA c s force).attemptsMade = 1 ∧
      (ssh_connect envA c s force).sleeps = 0) ∧
    ((ssh_connect envR c s force).attemptsMade = 2 ∧
      (ssh_connect envR c s force).sleeps = 1 ∧
      SSHState.ssh_connection_status ((ssh_connect envR c s force).state) = 0 ∧
      (ssh_connect envR c s force).result = Except.error (classifyOutcome (envR 1))) := by
  have hb : (s.ssh_connection_status == 2) = false := by simp [h]
  have hne : ¬((s.ssh_connection_status == 2 && !force) = true) := by simp [hb]
  constructor
  · unfold ssh_connect
    rw [if_neg hne]
    simp [max_connection_attempts, connectLoop, hA]
  · rcases hR0 with h0 | h0 | h0 <;> rcases hR1 with h1 | h1 | h1 <;>
      (unfold ssh_connect
       rw [if_neg hne]
       simp [max_connection_attempts, retry_delay, connectLoop, classifyLast,
         classifyOutcome, h0, h1])

/-- Witness for C4: the fresh state, an environment that always rejects
authentication, and an environment that always fails at the socket
level. -/
theorem C4_retry_and_classification_witness :
    initState.ssh_connection_status ≠ 2 ∧
    (fun _ : Nat => ConnectOutcome.authException) 0 = ConnectOutcome.authException ∧
    retryable ((fun _ : Nat => ConnectOutcome.osError) 0) ∧
    retryable ((fun _ : Nat => ConnectOutcome.osError) 1) ∧
    (((ssh_connect (fun _ => ConnectOutcome.authException) ⟨3⟩ initState false).result =
        Except.error (PyError.sshAuthenticationError
          "Authentication failed, verify SSH Key and credentials") ∧
      (ssh_connect (fun _ => ConnectOutcome.authException) ⟨3⟩ initState false).attemptsMade
        = 1 ∧
      (ssh_connect (fun _ => ConnectOutcome.authException) ⟨3⟩ initState false).sleeps = 0) ∧
    ((ssh_connect (fun _ => ConnectOutcome.osError) ⟨3⟩ initState false).attemptsMade = 2 ∧
      (ssh_connect (fun _ => ConnectOutcome.osError) ⟨3⟩ initState false).sleeps = 1 ∧
      SSHState.ssh_connection_status
        ((ssh_connect (fun _ => ConnectOutcome.osError) ⟨3⟩ initState false).state) = 0 ∧
      (ssh_connect (fun _ => ConnectOutcome.osError) ⟨3⟩ initState false).result =
        Except.error (classifyOutcome ((fun _ : Nat => ConnectOutcome.osError) 1)))) :=
  ⟨by decide, rfl, Or.inl rfl, Or.inl rfl,
    C4_retry_and_classification initState ⟨3⟩ false
      (fun _ => ConnectOutcome.authException) (fun _ => ConnectOutcome.osError)
      (by decide) rfl (Or.inl rfl) (Or.inl rfl)⟩

/-- Claim C6: on a Connected session, `execute_command_with_exit_status`
raises `ExecuteCommandError` when the output is empty, and also when the
retrieved exit status is falsy — in particular an exit status of exactly
0 with non-empty output raises instead of returning (lines, 0); only a
non-empty output with a non-zero status returns normally. -/
theorem C6_exit_status_zero_is_error (s : SSHState) (cmd : String) (out : List String)
    (es : Int) (h : s.ssh_connection_status = 2) :
    (out = [] → (execute_command_with_exit_status cmd (ExecBehavior.returns out es) s).1 =
      Except.error (PyError.executeCommandError "The command did not return any output")) ∧
    (out ≠ [] → es = 0 →
      (execute_command_with_exit_status cmd (ExecBehavior.returns out es) s).1 =
        Except.error (PyError.executeCommandError "The command did not return an exit status")) ∧
    (out ≠ [] → es ≠ 0 →
      (execute_command_with_exit_status cmd (ExecBehavior.returns out es) s).1 =
        Except.ok (some (out.map stripLine, es))) := by
  have hb : (s.ssh_connection_status == 2) = true := by simp [h]
  unfold execute_command_with_exit_status
  rw [if_pos hb]
  dsimp only
  refine ⟨?_, ?_, ?_⟩
  · intro h1
    subst h1
    rfl
  · intro h1 h2
    subst h2
    rw [if_neg (by simp [h1])]
    rfl
  · intro h1 h2
    rw [if_neg (by simp [h1]), if_neg (by simp [h2])]

/-- Witness for C6: a Connected session, output ["ok\n"], and the exit
status 0, on which the call raises instead of returning (["ok"], 0). -/
theorem C6_exit_status_zero_is_error_witness :
    sampleConnected.ssh_connection_status = 2 ∧
    (("ok\n" :: [] = ([] : List String) →
      (execute_command_with_exit_status "ls"
          (ExecBehavior.returns ("ok\n" :: []) 0) sampleConnected).1 =
        Except.error (PyError.executeCommandError "The command did not return any output")) ∧
    ("ok\n" :: [] ≠ ([] : List String) → (0 : Int) = 0 →
      (execute_command_with_exit_status "ls"
          (ExecBehavior.returns ("ok\n" :: []) 0) sampleConnected).1 =
        Except.error (PyError.executeCommandError
          "The command did not return an exit status")) ∧
    ("ok\n" :: [] ≠ ([] : List String) → (0 : Int) ≠ 0 →
      (execute_command_with_exit_status "ls"
          (ExecBehavior.returns ("ok\n" :: []) 0) sampleConnected).1 =
        Except.ok (some (("ok\n" :: []).map stripLine, 0)))) :=
  ⟨by decide,
    C6_exit_status_zero_is_error sampleConnected "ls" ("ok\n" :: []) 0 (by decide)⟩

/-- Claim C8: on a Connected session, `execute_command_with_output`
raises `ExecuteCommandError` exactly when the command produced zero
output lines, and otherwise returns the lines in order with the CR and
LF characters removed from each; a command producing the single line
"ok" yields ["ok"]. -/
theorem C8_captured_output (s : SSHState) (cmd : String) (out : List String) (es : Int)
    (h : s.ssh_connection_status = 2) :
    ((execute_command_with_output cmd (ExecBehavior.returns out es) s).1 =
        Except.error (PyError.executeCommandError "The command did not return any output") ↔
      out = []) ∧
    (out ≠ [] → (execute_command_with_output cmd (ExecBehavior.returns out es) s).1 =
      Except.ok (some (out.map stripLine))) ∧
    (execute_command_with_output cmd (ExecBehavior.returns ("ok\n" :: []) es) s).1 =
      Except.ok (some ("ok" :: [])) := by
  have hb : (s.ssh_connection_status == 2) = true := by simp [h]
  unfold execute_command_with_output
  refine ⟨?_, ?_, ?_⟩
  · rw [if_pos hb]
    cases out <;> simp
  · intro h1
    rw [if_pos hb]
    dsimp only
    rw [if_neg (by simp [h1])]
  · rw [if_pos hb]
    dsimp only
    rw [if_neg (by simp)]
    rfl

/-- Witness for C8: a Connected session and the single output line
"ok\n". -/
theorem C8_captured_output_witness :
    sampleConnected.ssh_connection_status = 2 ∧
    (((execute_command_with_output "ls"
          (ExecBehavior.returns ("ok\n" :: []) 1) sampleConnected).1 =
        Except.error (PyError.executeCommandError "The command did not return any output") ↔
      "ok\n" :: [] = ([] : List String)) ∧
    ("ok\n" :: [] ≠ ([] : List String) →
      (execute_command_with_output "ls"
          (ExecBehavior.returns ("ok\n" :: []) 1) sampleConnected).1 =
        Except.ok (some (("ok\n" :: []).map stripLine))) ∧
    (execute_command_with_output "ls"
        (ExecBehavior.returns ("ok\n" :: []) 1) sampleConnected).1 =
      Except.ok (some ("ok" :: []))) :=
  ⟨by decide,
    C8_captured_output sampleConnected "ls" ("ok\n" :: []) 1 (by decide)⟩

end SSHHandlerModel
